import Mathlib

/-!
# PandoWatch: the lifecycle of `daemonCommand` (cmd/daemon.go)

A shallow embedding of `daemonCommand`: the ordered start-up pipeline, the
blocking wait on the stop signal, and the sequential close sequence with its
error aggregation.

Every collaborator call (`config.Load`, `libp2p.New`, `legs.New`, `Close`, ...)
happens at most once per run, so the environment of a run fixes the outcome of
that one call: it returns `nil` / a value, or it returns an error.

The embedding has two layers.  `daemonCommand` follows the goroutine that
executes the function: everything this goroutine does to the outside world is
recorded, in program order, in a trace of events, and the goroutine spawned at
line 124 is recorded as spawned.  A run of `daemonCommand` is a run in which
every call that is made returns and the process is not ended from outside the
goroutine; the one place where such a run can stay forever is the wait for the
stop signal.  `daemonProcess` adds the watchdog goroutine of lines 124-131:
whether the deadline of the shutdown context passes before the deferred
`cancel()`, and how far the close sequence has got when it does, belongs to
the environment (there is no clock in the embedding); when it passes, the
watchdog prints its line and calls `os.Exit(-1)`, which ends the run where it
stands, for instance inside a `Close` call that has not returned.
-/

namespace PandoWatch

/-! ## Go error values -/

/-- Go `error` values.  `ext` is an error value handed out by a collaborator
package (`ident` is the identity of the value: Go compares such errors with
`==` by identity), `new` is a value built in `daemon.go` by `errors.New` or by
`fmt.Errorf` without `%w`, and `wrap` is `fmt.Errorf` with `%w`, which keeps
the wrapped error. -/
inductive GoError where
  | ext (ident : Nat) (msg : String)
  | new (msg : String)
  | wrap (msg : String) (err : GoError)
  deriving DecidableEq, Repr

/-- The method `Error()`. -/
def GoError.Error : GoError → String
  | .ext _ msg => msg
  | .new msg => msg
  | .wrap msg _ => msg

/-- The method `Unwrap()` as seen by `errors.Unwrap`. -/
def GoError.Unwrap : GoError → Option GoError
  | .wrap _ err => some err
  | _ => none

/-- The chain of errors that `errors.Is` walks: the error itself, then what it
wraps, and so on. -/
def GoError.chain : GoError → List GoError
  | .ext i msg => [.ext i msg]
  | .new msg => [.new msg]
  | .wrap msg err => .wrap msg err :: err.chain

/-- Line 30: `ErrDaemonStop  = errors.New("daemon did not stop gracefully")`. -/
def ErrDaemonStop : GoError := .new "daemon did not stop gracefully"

/-- Line 29: `ErrDaemonStart = errors.New("daemon did not start correctly")`. -/
def ErrDaemonStart : GoError := .new "daemon did not start correctly"

/-- Line 25: `shutdownTimeout = 5 * time.Second`, in nanoseconds
(the unit of `time.Duration`). -/
def shutdownTimeout : Nat := 5 * 1000000000

/-! ## Configuration and environment -/

/-- The fields of the loaded configuration that `daemonCommand` reads. -/
structure Config where
  /-- The field `cfg.ProviderServer.ListenMultiaddr`. -/
  listenMultiaddr : String
  /-- The field `cfg.Datastore.Type`. -/
  datastoreType : String
  /-- The field `cfg.Datastore.Dir`. -/
  datastoreDir : String
  deriving DecidableEq, Repr

/-- The start-up steps of `daemonCommand`, in source order. -/
inductive Step where
  | setLogLevel
  | configLoad
  | identityDecode
  | newMultiaddr
  | libp2pNew
  | checkDatastoreType
  | configPath
  | checkWritable
  | newDatastore
  | peerDecode
  | legsNew
  | monitorNew
  deriving DecidableEq, Repr

/-- The handles that own a `Close` method. -/
inductive Resource where
  | host
  | datastore
  | provider
  | monitor
  deriving DecidableEq, Repr

/-- What the goroutine running `daemonCommand` does, in program order. -/
inductive Event where
  /-- A start-up step is carried out. -/
  | step (s : Step)
  /-- The call `log.Infow(msg, ...)`. -/
  | logInfo (msg : String)
  /-- The call `log.Errorf(...)`, with the rendered message. -/
  | logError (msg : String)
  /-- The blocking `select` on `cctx.Done()`. -/
  | waitDone
  /-- The call `context.WithTimeout(context.Background(), d)`. -/
  | withTimeout (d : Nat)
  /-- The statement `go func() { ... }()` that starts the watchdog goroutine. -/
  | goWatchdog
  /-- The call `r.Close()`. -/
  | close (r : Resource)
  /-- The deferred `cancel()`. -/
  | cancel
  deriving DecidableEq, Repr

/-- The environment of one run: the outcome of every collaborator call. -/
structure Env where
  /-- The value `config.ErrNotInitialized`, declared in `pkg/config`. -/
  errNotInitialized : GoError
  /-- The rendering of a string by the verb `%q` of package `fmt`. -/
  quote : String → String
  /-- The call `logging.SetLogLevel("*", cctx.String("log-level"))`. -/
  setLogLevel : Option GoError
  /-- The call `config.Load("")`. -/
  configLoad : Except GoError Config
  /-- The call `cfg.Identity.Decode()`. -/
  identityDecode : Option GoError
  /-- The call `multiaddr.NewMultiaddr(cfg.ProviderServer.ListenMultiaddr)`. -/
  newMultiaddr : Option GoError
  /-- The call `libp2p.New(...)`. -/
  libp2pNew : Option GoError
  /-- The call `config.Path("", cfg.Datastore.Dir)`. -/
  configPath : Except GoError String
  /-- The call `checkWritable(dataStorePath)`. -/
  checkWritable : Option GoError
  /-- The call `leveldb.NewDatastore(dataStorePath, nil)`. -/
  newDatastore : Option GoError
  /-- The call `peer.Decode("12D3KooW...")`. -/
  peerDecode : Option GoError
  /-- The call `legs.New(...)`. -/
  legsNew : Option GoError
  /-- The call `monitor.New(...)`. -/
  monitorNew : Option GoError
  /-- Whether `cctx.Done()` is ever closed, that is whether the stop signal
  arrives. -/
  cctxDone : Bool
  /-- The call `m.Close()`. -/
  monitorClose : Option GoError
  /-- The call `legsProvider.Close()`. -/
  providerClose : Option GoError
  /-- The call `ds.Close()`. -/
  datastoreClose : Option GoError

/-- How a run of `daemonCommand` ends. -/
inductive Outcome where
  /-- The function returns `err` (`none` is `nil`). -/
  | returned (err : Option GoError)
  /-- The function blocks forever in the `select` on `cctx.Done()`. -/
  | blocked
  deriving DecidableEq, Repr

/-- A run: how it ends and what it did. -/
structure Run where
  outcome : Outcome
  trace : List Event
  deriving DecidableEq, Repr

/-! ## `daemonCommand` -/

/-- Lines 133-136, 138-141, 143-146: one `if err = x.Close(); err != nil`
block.  It calls `Close`, and on failure logs the cause with
`log.Errorf(msg + "%s", err)` and assigns `ErrDaemonStop` to `finalErr`. -/
def closeStep (r : Resource) (msg : String) (res : Option GoError)
    (finalErr : Option GoError) : Option GoError × List Event :=
  match res with
  | some err => (some ErrDaemonStop, [.close r, .logError (msg ++ err.Error)])
  | none => (finalErr, [.close r])

/-- Lines 42-150: `daemonCommand`.  The compositions of lines 92-93 and 110
(`blockstore.NewBlockstore`, `linksystem.MkLinkSystem`, `GetTaskQueue`) have no
error result and leave no event. -/
def daemonCommand (env : Env) : Run :=
  -- 43-46
  let tr := [Event.step .setLogLevel]
  match env.setLogLevel with
  | some err => ⟨.returned (some err), tr⟩
  | none =>
  -- 48-54
  let tr := tr ++ [.step .configLoad]
  match env.configLoad with
  | .error err =>
    if err = env.errNotInitialized then
      ⟨.returned (some (.new
        "pando provider is not initialized\nTo initialize, run using the \"init\" command")), tr⟩
    else
      ⟨.returned (some (.wrap ("cannot load config file: " ++ err.Error) err)), tr⟩
  | .ok cfg =>
  -- 56-59
  let tr := tr ++ [.step .identityDecode]
  match env.identityDecode with
  | some err => ⟨.returned (some err), tr⟩
  | none =>
  -- 61-64
  let tr := tr ++ [.step .newMultiaddr]
  match env.newMultiaddr with
  | some err =>
    ⟨.returned (some (.new
      ("bad p2p address in config " ++ cfg.listenMultiaddr ++ ": " ++ err.Error))), tr⟩
  | none =>
  -- 65-74
  let tr := tr ++ [.step .libp2pNew]
  match env.libp2pNew with
  | some err => ⟨.returned (some err), tr⟩
  | none =>
  let tr := tr ++ [.logInfo "libp2p host initialized"]
  -- 76-79
  let tr := tr ++ [.step .checkDatastoreType]
  if cfg.datastoreType ≠ "levelds" then
    ⟨.returned (some (.new ("only levelds datastore type supported, "
      ++ env.quote cfg.datastoreType ++ " not supported"))), tr⟩
  else
  -- 80-83
  let tr := tr ++ [.step .configPath]
  match env.configPath with
  | .error err => ⟨.returned (some err), tr⟩
  | .ok _dataStorePath =>
  -- 84-87
  let tr := tr ++ [.step .checkWritable]
  match env.checkWritable with
  | some err => ⟨.returned (some err), tr⟩
  | none =>
  -- 88-93
  let tr := tr ++ [.step .newDatastore]
  match env.newDatastore with
  | some err => ⟨.returned (some err), tr⟩
  | none =>
  -- 95-98
  let tr := tr ++ [.step .peerDecode]
  match env.peerDecode with
  | some err => ⟨.returned (some err), tr⟩
  | none =>
  -- 99-106
  let tr := tr ++ [.step .legsNew]
  match env.legsNew with
  | some err => ⟨.returned (some err), tr⟩
  | none =>
  -- 107-114
  let tr := tr ++ [.step .monitorNew]
  match env.monitorNew with
  | some err => ⟨.returned (some err), tr⟩
  | none =>
  -- 116-120
  let finalErr : Option GoError := none
  let tr := tr ++ [.waitDone]
  if env.cctxDone = false then ⟨.blocked, tr⟩ else
  let tr := tr ++ [.logInfo "Shutting down daemon"]
  -- 122-131
  let tr := tr ++ [.withTimeout shutdownTimeout, .goWatchdog]
  -- 133-136
  let (finalErr, evs) := closeStep .monitor "Error closing monitor: " env.monitorClose finalErr
  let tr := tr ++ evs
  -- 138-141
  let (finalErr, evs) :=
    closeStep .provider "Error closing legsProvider: " env.providerClose finalErr
  let tr := tr ++ evs
  -- 143-146
  let (finalErr, evs) :=
    closeStep .datastore "Error closing provider datastore: " env.datastoreClose finalErr
  let tr := tr ++ evs
  -- 148-149, then the deferred cancel
  let tr := tr ++ [.logInfo "node stopped", .cancel]
  ⟨.returned finalErr, tr⟩

/-! ## Observations on a run -/

/-- The start-up steps carried out, in order. -/
def Run.steps (r : Run) : List Step :=
  r.trace.filterMap fun e => match e with
    | .step s => some s
    | _ => none

/-- The handles on which `Close` was called, in order. -/
def Run.closes (r : Run) : List Resource :=
  r.trace.filterMap fun e => match e with
    | .close x => some x
    | _ => none

/-- The messages written with `log.Errorf`, in order. -/
def Run.errorLog (r : Run) : List String :=
  r.trace.filterMap fun e => match e with
    | .logError m => some m
    | _ => none

/-- The run got as far as the shutdown phase (line 120). -/
def Run.enteredShutdown (r : Run) : Prop :=
  Event.logInfo "Shutting down daemon" ∈ r.trace

instance (r : Run) : Decidable r.enteredShutdown := by
  unfold Run.enteredShutdown; infer_instance

/-- The handle a start-up step constructs, if it constructs one. -/
def constructs : Step → Option Resource
  | .libp2pNew => some .host
  | .newDatastore => some .datastore
  | .legsNew => some .provider
  | .monitorNew => some .monitor
  | _ => none

/-- The constructor calls made in a run, by the handle each one yields, in
order.  In a run that reaches the blocking wait every one of them succeeded, so
these are the handles the run holds. -/
def Run.constructions (r : Run) : List Resource :=
  r.steps.filterMap constructs

/-- The environment `env` with the outcomes of the three `Close` calls replaced. -/
def Env.withCloses (env : Env) (mc pc dc : Option GoError) : Env :=
  { env with monitorClose := mc, providerClose := pc, datastoreClose := dc }

/-! ## The start-up pipeline as a list of steps -/

/-- The start-up steps in the order of the source. -/
def initSteps : List Step :=
  [.setLogLevel, .configLoad, .identityDecode, .newMultiaddr, .libp2pNew, .checkDatastoreType,
   .configPath, .checkWritable, .newDatastore, .peerDecode, .legsNew, .monitorNew]

/-- The error with which a start-up step fails in `env`, `none` when it
succeeds.  The check of the datastore type reads the loaded configuration and
has the error of line 78 as its cause. -/
def stepCause (env : Env) : Step → Option GoError
  | .setLogLevel => env.setLogLevel
  | .configLoad =>
    match env.configLoad with
    | .error err => some err
    | .ok _ => none
  | .identityDecode => env.identityDecode
  | .newMultiaddr => env.newMultiaddr
  | .libp2pNew => env.libp2pNew
  | .checkDatastoreType =>
    match env.configLoad with
    | .ok cfg =>
      if cfg.datastoreType ≠ "levelds" then
        some (.new ("only levelds datastore type supported, "
          ++ env.quote cfg.datastoreType ++ " not supported"))
      else none
    | .error _ => none
  | .configPath =>
    match env.configPath with
    | .error err => some err
    | .ok _ => none
  | .checkWritable => env.checkWritable
  | .newDatastore => env.newDatastore
  | .peerDecode => env.peerDecode
  | .legsNew => env.legsNew
  | .monitorNew => env.monitorNew

/-- The first step, in source order, that fails in `env`, with its cause. -/
def firstFailure (env : Env) : Option (Step × GoError) :=
  initSteps.findSome? fun s => (stepCause env s).map fun c => (s, c)

/-- The cause of the last `Close` that fails, in close order (monitor,
provider, datastore). -/
def lastCloseFailure (env : Env) : Option GoError :=
  match env.datastoreClose, env.providerClose, env.monitorClose with
  | some c, _, _ => some c
  | none, some c, _ => some c
  | none, none, c => c

/-! ## Closed forms used in the proofs -/

/-- The events of one start-up step: the log line of line 74 precedes the
check of the datastore type. -/
def stepEvents : Step → List Event
  | .checkDatastoreType => [.logInfo "libp2p host initialized", .step .checkDatastoreType]
  | s => [.step s]

/-- The trace of a run whose last start-up step is `s`. -/
def initTrace (s : Step) : List Event :=
  (initSteps.take (initSteps.indexOf s + 1)).flatMap stepEvents

/-- The error `daemonCommand` returns when step `s` fails with cause `c`
(lines 45, 50-53, 58, 63, 72, 78, 82, 86, 90, 97, 105, 113). -/
def surfaced (env : Env) (s : Step) (c : GoError) : GoError :=
  match s with
  | .configLoad =>
    if c = env.errNotInitialized then
      .new "pando provider is not initialized\nTo initialize, run using the \"init\" command"
    else .wrap ("cannot load config file: " ++ c.Error) c
  | .newMultiaddr =>
    match env.configLoad with
    | .ok cfg => .new ("bad p2p address in config " ++ cfg.listenMultiaddr ++ ": " ++ c.Error)
    | .error _ => c
  | _ => c

/-- The events of one close block. -/
def closeTrace (r : Resource) (msg : String) (res : Option GoError) : List Event :=
  .close r :: res.toList.map fun err => .logError (msg ++ err.Error)

/-- The trace of a run up to and including the start of the watchdog. -/
def shutdownHead : List Event :=
  [.step .setLogLevel, .step .configLoad, .step .identityDecode, .step .newMultiaddr,
    .step .libp2pNew, .logInfo "libp2p host initialized", .step .checkDatastoreType,
    .step .configPath, .step .checkWritable, .step .newDatastore, .step .peerDecode,
    .step .legsNew, .step .monitorNew, .waitDone, .logInfo "Shutting down daemon",
    .withTimeout shutdownTimeout, .goWatchdog]

/-- The trace of a run of the function after the start of the watchdog: the
three close blocks, the last log line and the deferred `cancel()`. -/
def shutdownTail (env : Env) : List Event :=
  closeTrace .monitor "Error closing monitor: " env.monitorClose ++
  closeTrace .provider "Error closing legsProvider: " env.providerClose ++
  closeTrace .datastore "Error closing provider datastore: " env.datastoreClose ++
  [.logInfo "node stopped", .cancel]

/-! ## The watchdog goroutine and the process -/

/-- The value of `shutdownCtx.Err()` once `shutdownCtx.Done()` is closed. -/
inductive CtxErr where
  /-- The deferred `cancel()` came before the deadline. -/
  | canceled
  /-- The deadline came first: `context.DeadlineExceeded`. -/
  | deadlineExceeded
  deriving DecidableEq, Repr

/-- What the watchdog goroutine does to the outside world. -/
inductive WatchdogEvent where
  /-- The call `fmt.Println(msg)`. -/
  | println (msg : String)
  /-- The call `os.Exit(code)`. -/
  | osExit (code : Int)
  deriving DecidableEq, Repr

/-- Lines 126-130: the body of the watchdog goroutine after `shutdownCtx.Done()`
is closed, `err` being `shutdownCtx.Err()`. -/
def watchdog (err : CtxErr) : List WatchdogEvent :=
  if err = .deadlineExceeded then
    [.println "Timed out on shutdown, terminating...", .osExit (-1)]
  else []

/-- How the process that runs `daemonCommand` gets on. -/
inductive ProcessOutcome where
  /-- The function `daemonCommand` returns `err` (`none` is `nil`). -/
  | returned (err : Option GoError)
  /-- The function blocks forever in the `select` on `cctx.Done()`. -/
  | blocked
  /-- The watchdog calls `os.Exit(code)`: the process ends and `daemonCommand`
  never returns. -/
  | exited (code : Int)
  deriving DecidableEq, Repr

/-- The end of a run of the function, as an end of the process. -/
def Outcome.toProcess : Outcome → ProcessOutcome
  | .returned err => .returned err
  | .blocked => .blocked

/-- A run of the process: how it ends, what the goroutine of `daemonCommand`
did, and what the watchdog goroutine did. -/
structure ProcessRun where
  outcome : ProcessOutcome
  trace : List Event
  watchdog : List WatchdogEvent
  deriving DecidableEq, Repr

/-- The environment of a run of the process. -/
structure World where
  /-- The outcomes of the collaborator calls. -/
  env : Env
  /-- The fate of the shutdown context.  With `none` the deferred `cancel()`
  comes before the deadline.  With `some k` the deadline passes when the
  goroutine of `daemonCommand` has got `k` events beyond the start of the
  watchdog: `some 1` is the deadline passing inside `m.Close()`. -/
  deadlineAfter : Option Nat

/-- The process that runs `daemonCommand`, with the watchdog of lines 124-131.
When the watchdog was started and the deadline passes before the deferred
`cancel()` is reached, `shutdownCtx.Err()` is `DeadlineExceeded`, the watchdog
prints and calls `os.Exit(-1)`, and the goroutine of `daemonCommand` stops
where it stands.  Otherwise `cancel()` closes `Done()` with `Err()` being
`Canceled`, and the run is the run of `daemonCommand`. -/
def daemonProcess (w : World) : ProcessRun :=
  let r := daemonCommand w.env
  if Event.goWatchdog ∈ r.trace then
    let started := r.trace.indexOf .goWatchdog + 1
    match w.deadlineAfter with
    | some k =>
      if started + k < r.trace.length then
        ⟨.exited (-1), r.trace.take (started + k), watchdog .deadlineExceeded⟩
      else ⟨r.outcome.toProcess, r.trace, watchdog .canceled⟩
    | none => ⟨r.outcome.toProcess, r.trace, watchdog .canceled⟩
  else ⟨r.outcome.toProcess, r.trace, []⟩

/-- The start-up steps carried out, in order. -/
def ProcessRun.steps (p : ProcessRun) : List Step :=
  p.trace.filterMap fun e => match e with
    | .step s => some s
    | _ => none

/-- The handles on which `Close` was called, in order. -/
def ProcessRun.closes (p : ProcessRun) : List Resource :=
  p.trace.filterMap fun e => match e with
    | .close x => some x
    | _ => none

/-- The messages written with `log.Errorf`, in order. -/
def ProcessRun.errorLog (p : ProcessRun) : List String :=
  p.trace.filterMap fun e => match e with
    | .logError m => some m
    | _ => none

/-- The constructor calls made, by the handle each one yields, in order. -/
def ProcessRun.constructions (p : ProcessRun) : List Resource :=
  p.steps.filterMap constructs

/-- The run got as far as the shutdown phase (line 120). -/
def ProcessRun.enteredShutdown (p : ProcessRun) : Prop :=
  Event.logInfo "Shutting down daemon" ∈ p.trace

instance (p : ProcessRun) : Decidable p.enteredShutdown := by
  unfold ProcessRun.enteredShutdown; infer_instance

/-- The run was ended by the watchdog. -/
def ProcessRun.forceTerminated (p : ProcessRun) : Prop :=
  ∃ code, p.outcome = .exited code

instance (p : ProcessRun) : Decidable p.forceTerminated := by
  unfold ProcessRun.forceTerminated
  cases p.outcome with
  | returned err => exact isFalse (fun ⟨_, h⟩ => ProcessOutcome.noConfusion h)
  | blocked => exact isFalse (fun ⟨_, h⟩ => ProcessOutcome.noConfusion h)
  | exited code => exact isTrue ⟨code, rfl⟩

/-! ## Concrete environments -/

/-- An environment in which every call succeeds and the stop signal arrives. -/
def envOk : Env where
  errNotInitialized := .ext 1 "not initialized"
  quote := fun s => "\"" ++ s ++ "\""
  setLogLevel := none
  configLoad := .ok ⟨"/ip4/0.0.0.0/tcp/9003", "levelds", "datastore"⟩
  identityDecode := none
  newMultiaddr := none
  libp2pNew := none
  configPath := .ok "/home/pando/.pando/datastore"
  checkWritable := none
  newDatastore := none
  peerDecode := none
  legsNew := none
  monitorNew := none
  cctxDone := true
  monitorClose := none
  providerClose := none
  datastoreClose := none

/-- The identity does not decode. -/
def identityError : GoError := .ext 2 "could not decode private key"

/-- The listen address does not parse. -/
def addressError : GoError := .ext 3 "failed to parse multiaddr"

/-- Both the identity and the listen address are bad. -/
def envBadIdentityAndAddress : Env :=
  { envOk with identityDecode := some identityError, newMultiaddr := some addressError }

/-- The cause with which the provider fails to close. -/
def providerCloseError : GoError := .ext 7 "ProviderCloseError"

/-- The monitor closes, the provider fails to close, the datastore closes. -/
def envProviderCloseFails : Env :=
  { envOk with providerClose := some providerCloseError }

/-- The provider fails to close with another cause. -/
def envProviderCloseFailsOtherwise : Env :=
  { envOk with providerClose := some (.ext 8 "leveldb: closed") }

/-- The configured datastore type is `badger`. -/
def envBadgerDatastore : Env :=
  { envOk with configLoad := .ok ⟨"/ip4/0.0.0.0/tcp/9003", "badger", "datastore"⟩ }

/-- The provider was never initialised: `config.Load` returns
`config.ErrNotInitialized`. -/
def envNotInitialized : Env :=
  { envOk with configLoad := .error (.ext 1 "not initialized") }

/-- Another load failure: The configuration file is damaged. -/
def envConfigDamaged : Env :=
  { envOk with configLoad := .error (.ext 9 "unexpected end of JSON input") }

/-- Every call would succeed, but `m.Close()` has not returned when the
deadline of the shutdown context passes. -/
def worldMonitorCloseHangs : World := ⟨envOk, some 1⟩

/-- The monitor fails to close at once, and `legsProvider.Close()` has not
returned when the deadline passes. -/
def worldProviderCloseHangs : World :=
  ⟨{ envOk with monitorClose := some (.ext 12 "monitor: close failed") }, some 3⟩

/-- The provider fails to close and the deadline does not pass. -/
def worldProviderCloseFails : World := ⟨envProviderCloseFails, none⟩

/-- Every call succeeds and the deadline does not pass. -/
def worldOk : World := ⟨envOk, none⟩

/-- The monitor cannot be constructed. -/
def envMonitorNewFails : Env :=
  { envOk with monitorNew := some (.ext 11 "monitor: bad url") }

/-! ## Closed forms of a run -/

/-- A run in which a start-up step fails: the steps up to the first failing one
are carried out, and the cause of that step is returned as `surfaced` gives
it.  Every step after `config.Load` runs on a loaded configuration. -/
theorem daemonCommand_of_firstFailure (env : Env) (s : Step) (c : GoError)
    (h : firstFailure env = some (s, c)) :
    daemonCommand env = ⟨.returned (some (surfaced env s c)), initTrace s⟩ ∧
    (s ≠ .setLogLevel → s ≠ .configLoad → ∃ cfg, env.configLoad = .ok cfg) := by
  rcases env with ⟨eni, q, sl, cl, idd, nm, lp, cp, cw, nd, pd, lg, mn, done, mc, pc, dc⟩
  simp only [firstFailure, initSteps, List.findSome?, stepCause] at h
  rcases sl with _ | e
  swap
  · simp at h; obtain ⟨rfl, rfl⟩ := h; simp [daemonCommand, surfaced]; decide
  rcases cl with e | cfg
  · simp at h; obtain ⟨rfl, rfl⟩ := h
    by_cases hc : e = eni <;> simp [daemonCommand, surfaced, hc] <;> decide
  rcases idd with _ | e
  swap
  · simp at h; obtain ⟨rfl, rfl⟩ := h; simp [daemonCommand, surfaced]; decide
  rcases nm with _ | e
  swap
  · simp at h; obtain ⟨rfl, rfl⟩ := h; simp [daemonCommand, surfaced]; decide
  rcases lp with _ | e
  swap
  · simp at h; obtain ⟨rfl, rfl⟩ := h; simp [daemonCommand, surfaced]; decide
  by_cases hty : cfg.datastoreType = "levelds"
  swap
  · simp [hty] at h; obtain ⟨rfl, rfl⟩ := h; simp [daemonCommand, surfaced, hty]; decide
  rcases cp with e | p
  · simp [hty] at h; obtain ⟨rfl, rfl⟩ := h; simp [daemonCommand, surfaced, hty]; decide
  rcases cw with _ | e
  swap
  · simp [hty] at h; obtain ⟨rfl, rfl⟩ := h; simp [daemonCommand, surfaced, hty]; decide
  rcases nd with _ | e
  swap
  · simp [hty] at h; obtain ⟨rfl, rfl⟩ := h; simp [daemonCommand, surfaced, hty]; decide
  rcases pd with _ | e
  swap
  · simp [hty] at h; obtain ⟨rfl, rfl⟩ := h; simp [daemonCommand, surfaced, hty]; decide
  rcases lg with _ | e
  swap
  · simp [hty] at h; obtain ⟨rfl, rfl⟩ := h; simp [daemonCommand, surfaced, hty]; decide
  rcases mn with _ | e
  swap
  · simp [hty] at h; obtain ⟨rfl, rfl⟩ := h; simp [daemonCommand, surfaced, hty]; decide
  simp [hty] at h

/-- A run in which every start-up step succeeds: the whole pipeline is carried
out and the function waits for the stop signal; when the signal arrives the
three close blocks run one after the other. -/
theorem daemonCommand_of_started (env : Env) (h : firstFailure env = none) :
    daemonCommand env =
      if env.cctxDone = false then ⟨.blocked, initTrace .monitorNew ++ [.waitDone]⟩
      else
        ⟨.returned
          (if env.monitorClose = none ∧ env.providerClose = none ∧ env.datastoreClose = none
            then none else some ErrDaemonStop),
          initTrace .monitorNew ++
          [.waitDone, .logInfo "Shutting down daemon", .withTimeout shutdownTimeout,
            .goWatchdog] ++
          closeTrace .monitor "Error closing monitor: " env.monitorClose ++
          closeTrace .provider "Error closing legsProvider: " env.providerClose ++
          closeTrace .datastore "Error closing provider datastore: " env.datastoreClose ++
          [.logInfo "node stopped", .cancel]⟩ := by
  rcases env with ⟨eni, q, sl, cl, idd, nm, lp, cp, cw, nd, pd, lg, mn, done, mc, pc, dc⟩
  simp only [firstFailure, initSteps, List.findSome?, stepCause] at h
  rcases sl with _ | e
  swap
  · simp at h
  rcases cl with e | cfg
  · simp at h
  rcases idd with _ | e
  swap
  · simp at h
  rcases nm with _ | e
  swap
  · simp at h
  rcases lp with _ | e
  swap
  · simp at h
  by_cases hty : cfg.datastoreType = "levelds"
  swap
  · simp [hty] at h
  rcases cp with e | p
  · simp [hty] at h
  rcases cw with _ | e
  swap
  · simp [hty] at h
  rcases nd with _ | e
  swap
  · simp [hty] at h
  rcases pd with _ | e
  swap
  · simp [hty] at h
  rcases lg with _ | e
  swap
  · simp [hty] at h
  rcases mn with _ | e
  swap
  · simp [hty] at h
  have hi : initTrace .monitorNew =
      [.step .setLogLevel, .step .configLoad, .step .identityDecode, .step .newMultiaddr,
        .step .libp2pNew, .logInfo "libp2p host initialized", .step .checkDatastoreType,
        .step .configPath, .step .checkWritable, .step .newDatastore, .step .peerDecode,
        .step .legsNew, .step .monitorNew] := by decide
  rw [hi]
  cases done
  · simp [daemonCommand, hty]
  · rcases mc with _ | e1 <;> rcases pc with _ | e2 <;> rcases dc with _ | e3 <;>
      simp [daemonCommand, hty, closeStep, closeTrace]

/-- The shutdown phase is entered exactly when every start-up step succeeds and
the stop signal arrives. -/
theorem enteredShutdown_iff (env : Env) :
    (daemonCommand env).enteredShutdown ↔ firstFailure env = none ∧ env.cctxDone = true := by
  cases hf : firstFailure env with
  | some p =>
    obtain ⟨s, c⟩ := p
    rw [(daemonCommand_of_firstFailure env s c hf).1]
    simp only [Run.enteredShutdown, reduceCtorEq, false_and, iff_false]
    cases s <;> decide
  | none =>
    rw [daemonCommand_of_started env hf]
    have hi : Event.logInfo "Shutting down daemon" ∉ initTrace .monitorNew := by decide
    cases hd : env.cctxDone
    · simp [Run.enteredShutdown, hi]
    · simp [Run.enteredShutdown]

/-- The steps in the trace of a run that stops at step `s`. -/
theorem steps_initTrace (o : Outcome) (s : Step) :
    (Run.mk o (initTrace s)).steps = initSteps.take (initSteps.indexOf s + 1) := by
  cases s <;> rfl

/-- A run that stops at step `s` carries out no later step. -/
theorem step_not_mem_initTrace (s t : Step)
    (h : initSteps.indexOf s < initSteps.indexOf t) : Event.step t ∉ initTrace s := by
  revert h
  cases s <;> cases t <;> decide

/-- A run that stops at the resolution of the datastore path, or later, has
resolved the datastore path. -/
theorem configPath_mem_initTrace (s : Step)
    (h : initSteps.indexOf .configPath ≤ initSteps.indexOf s) :
    Event.step .configPath ∈ initTrace s := by
  revert h
  cases s <;> decide

/-- A run that stops at a start-up step holds start-up events only. -/
theorem initTrace_startup_only (s : Step) :
    (∀ r, Event.close r ∉ initTrace s) ∧ (∀ d, Event.withTimeout d ∉ initTrace s) ∧
    Event.goWatchdog ∉ initTrace s ∧ Event.waitDone ∉ initTrace s ∧
    Event.cancel ∉ initTrace s := by
  refine ⟨?_, ?_, ?_, ?_, ?_⟩
  · intro r; cases s <;> simp [initTrace, initSteps, stepEvents]
  · intro d; cases s <;> simp [initTrace, initSteps, stepEvents]
  · cases s <;> decide
  · cases s <;> decide
  · cases s <;> decide

/-- Some step fails exactly when there is a first failing step. -/
theorem firstFailure_isSome_iff (env : Env) :
    (∃ s c, stepCause env s = some c) ↔ ∃ s c, firstFailure env = some (s, c) := by
  constructor
  · rintro ⟨s, c, hs⟩
    cases hf : firstFailure env with
    | some p => exact ⟨p.1, p.2, rfl⟩
    | none =>
      exfalso
      simp only [firstFailure, List.findSome?_eq_none_iff] at hf
      have := hf s (by cases s <;> decide)
      simp [hs] at this
  · rintro ⟨s, c, hf⟩
    simp only [firstFailure] at hf
    obtain ⟨t, _, ht⟩ := List.exists_of_findSome?_eq_some hf
    cases hc : stepCause env t with
    | none => simp [hc] at ht
    | some d => exact ⟨t, d, hc⟩

/-! ## Start-up: fail-fast -/

/-- C1: start-up is fail-fast.  For every assignment of outcomes to the
start-up steps in which `s` is the first step that fails, with cause `c`: the
steps carried out are exactly the steps up to and including `s`, no later step
is carried out, and the function returns a non-nil error that identifies `c`:
it is `c` itself, except that a failed `config.Load` is returned as the fixed
not-initialized message (when `c` is `config.ErrNotInitialized`) or wrapped
with `%w`, and a failed `multiaddr.NewMultiaddr` is returned as a message that
ends in the text of `c`.  In particular, when the identity does not decode and
the address does not parse, the identity error is returned and the address is
never parsed. -/
theorem daemonCommand_fail_fast (env : Env) (s : Step) (c : GoError)
    (h : firstFailure env = some (s, c)) :
    (daemonCommand env).steps = initSteps.take (initSteps.indexOf s + 1) ∧
    (∀ t, initSteps.indexOf s < initSteps.indexOf t →
      Event.step t ∉ (daemonCommand env).trace) ∧
    (∃ ret, (daemonCommand env).outcome = .returned (some ret) ∧
      (s ≠ .configLoad → s ≠ .newMultiaddr → ret = c) ∧
      (s = .configLoad → c = env.errNotInitialized → ret = .new
        "pando provider is not initialized\nTo initialize, run using the \"init\" command") ∧
      (s = .configLoad → c ≠ env.errNotInitialized →
        ret = .wrap ("cannot load config file: " ++ c.Error) c ∧ ret.Unwrap = some c) ∧
      (s = .newMultiaddr → ∃ cfg, env.configLoad = .ok cfg ∧
        ret = .new ("bad p2p address in config " ++ cfg.listenMultiaddr ++ ": " ++ c.Error))) ∧
    (∀ e₁ e₂, env.identityDecode = some e₁ → env.newMultiaddr = some e₂ →
      stepCause env .setLogLevel = none → stepCause env .configLoad = none →
      s = .identityDecode ∧ c = e₁ ∧ (daemonCommand env).outcome = .returned (some e₁) ∧
      Event.step .newMultiaddr ∉ (daemonCommand env).trace) := by
  obtain ⟨hrun, hcfg⟩ := daemonCommand_of_firstFailure env s c h
  have hsteps : (daemonCommand env).steps = initSteps.take (initSteps.indexOf s + 1) := by
    rw [hrun]; exact steps_initTrace _ s
  have hafter : ∀ t, initSteps.indexOf s < initSteps.indexOf t →
      Event.step t ∉ (daemonCommand env).trace := by
    rw [hrun]; intro t ht; exact step_not_mem_initTrace s t ht
  refine ⟨hsteps, hafter, ⟨surfaced env s c, by rw [hrun], ?_, ?_, ?_, ?_⟩, ?_⟩
  · intro h1 h2; cases s <;> simp_all [surfaced]
  · rintro rfl hc; simp [surfaced, hc]
  · rintro rfl hc; simp [surfaced, hc, GoError.Unwrap]
  · rintro rfl
    obtain ⟨cfg, hc⟩ := hcfg (by decide) (by decide)
    exact ⟨cfg, hc, by simp [surfaced, hc]⟩
  · intro e₁ e₂ hid _ hsl hcl
    have hf : firstFailure env = some (.identityDecode, e₁) := by
      simp only [stepCause] at hsl
      simp only [firstFailure, initSteps, List.findSome?, stepCause, hsl, hid]
      cases hl : env.configLoad with
      | error e => simp [stepCause, hl] at hcl
      | ok cfg => simp
    rw [h] at hf
    simp only [Option.some.injEq, Prod.mk.injEq] at hf
    obtain ⟨rfl, rfl⟩ := hf
    refine ⟨rfl, rfl, by rw [hrun]; rfl, hafter _ (by decide)⟩

/-- C1, witness: the identity does not decode and the address does not parse;
the run stops at the identity with the identity error. -/
theorem daemonCommand_fail_fast_witness :
    firstFailure envBadIdentityAndAddress = some (.identityDecode, identityError) ∧
    (daemonCommand envBadIdentityAndAddress).steps =
      [.setLogLevel, .configLoad, .identityDecode] ∧
    (daemonCommand envBadIdentityAndAddress).outcome = .returned (some identityError) :=
  have h := daemonCommand_fail_fast envBadIdentityAndAddress .identityDecode identityError
    (by decide)
  ⟨by decide, h.1, (h.2.2.2 identityError addressError rfl rfl rfl rfl).2.2.1⟩

/-- The start-up trace of a run that carries out the whole pipeline. -/
theorem initTrace_monitorNew :
    initTrace .monitorNew =
      [.step .setLogLevel, .step .configLoad, .step .identityDecode, .step .newMultiaddr,
        .step .libp2pNew, .logInfo "libp2p host initialized", .step .checkDatastoreType,
        .step .configPath, .step .checkWritable, .step .newDatastore, .step .peerDecode,
        .step .legsNew, .step .monitorNew] := by
  decide

/-- The first failing step does fail, with the cause given. -/
theorem stepCause_of_firstFailure (env : Env) (s : Step) (c : GoError)
    (h : firstFailure env = some (s, c)) : stepCause env s = some c := by
  simp only [firstFailure] at h
  obtain ⟨t, _, ht⟩ := List.exists_of_findSome?_eq_some h
  cases hc : stepCause env t with
  | none => simp [hc] at ht
  | some d =>
    simp only [hc, Option.map_some', Option.some.injEq, Prod.mk.injEq] at ht
    obtain ⟨rfl, rfl⟩ := ht
    exact hc

/-- The text of the not-initialized error never starts like the text of a
wrapped load error. -/
theorem notInitialized_ne_cannotLoad (m : String) :
    "pando provider is not initialized\nTo initialize, run using the \"init\" command" ≠
      "cannot load config file: " ++ m := by
  intro h
  have h2 := congrArg (fun s => s.data.head?) h
  simp [String.data_append] at h2

/-! ## Shutdown -/

/-- The `Close` calls of a run that reaches the shutdown phase. -/
theorem closes_of_enteredShutdown (env : Env) (h : (daemonCommand env).enteredShutdown) :
    (daemonCommand env).closes = [.monitor, .provider, .datastore] := by
  obtain ⟨hf, hd⟩ := (enteredShutdown_iff env).1 h
  have hrun := daemonCommand_of_started _ hf
  rw [hd, initTrace_monitorNew] at hrun
  rw [hrun]
  rcases env.monitorClose with _ | e1 <;> rcases env.providerClose with _ | e2 <;>
    rcases env.datastoreClose with _ | e3 <;> simp [Run.closes, closeTrace]

/-- C2: continue-on-error at shutdown.  Take a run that reaches the shutdown
phase, and give the three `Close` calls any combination `mc`, `pc`, `dc` of
outcomes (`none` is success, `some e` is failure with cause `e`): the run
still reaches the shutdown phase, `Close` is called exactly once on each of
the monitor, the provider and the datastore, and a failure of an earlier
`Close` is followed by the later `Close` calls. -/
theorem shutdown_continue_on_error (env : Env) (mc pc dc : Option GoError)
    (h : (daemonCommand env).enteredShutdown) :
    (daemonCommand (env.withCloses mc pc dc)).enteredShutdown ∧
    (∀ r ∈ [Resource.monitor, Resource.provider, Resource.datastore],
      (daemonCommand (env.withCloses mc pc dc)).closes.count r = 1) ∧
    (mc ≠ none → Resource.provider ∈ (daemonCommand (env.withCloses mc pc dc)).closes ∧
      Resource.datastore ∈ (daemonCommand (env.withCloses mc pc dc)).closes) ∧
    (pc ≠ none → Resource.datastore ∈ (daemonCommand (env.withCloses mc pc dc)).closes) := by
  obtain ⟨hf, hd⟩ := (enteredShutdown_iff env).1 h
  have hf2 : firstFailure (env.withCloses mc pc dc) = none := hf
  have hd2 : (env.withCloses mc pc dc).cctxDone = true := hd
  have hent := (enteredShutdown_iff (env.withCloses mc pc dc)).2 ⟨hf2, hd2⟩
  rw [closes_of_enteredShutdown _ hent]
  exact ⟨hent, by decide, fun _ => by decide, fun _ => by decide⟩

/-- C2, witness: the provider fails to close; all three `Close` calls are made
once. -/
theorem shutdown_continue_on_error_witness :
    (daemonCommand envOk).enteredShutdown ∧
    (∀ r ∈ [Resource.monitor, Resource.provider, Resource.datastore],
      (daemonCommand (envOk.withCloses none (some providerCloseError) none)).closes.count r
        = 1) :=
  ⟨by decide,
    (shutdown_continue_on_error envOk none (some providerCloseError) none (by decide)).2.1⟩

/-- The close order of a run of the function that reaches the shutdown phase:
in such a run every `Close` call returns. -/
theorem close_order_of_returning_run (env : Env) (h : (daemonCommand env).enteredShutdown) :
    (daemonCommand env).closes = [.monitor, .provider, .datastore] ∧
    (daemonCommand env).constructions = [.host, .datastore, .provider, .monitor] ∧
    (daemonCommand env).closes =
      ((daemonCommand env).constructions.filter fun r => r ≠ .host).reverse ∧
    Event.close .host ∉ (daemonCommand env).trace := by
  obtain ⟨hf, hd⟩ := (enteredShutdown_iff env).1 h
  have hrun := daemonCommand_of_started _ hf
  rw [hd, initTrace_monitorNew] at hrun
  have hc := closes_of_enteredShutdown env h
  have hk : (daemonCommand env).constructions = [.host, .datastore, .provider, .monitor] := by
    rw [hrun]
    rcases env.monitorClose with _ | e1 <;> rcases env.providerClose with _ | e2 <;>
      rcases env.datastoreClose with _ | e3 <;>
      simp [Run.constructions, Run.steps, closeTrace, constructs]
  refine ⟨hc, hk, ?_, ?_⟩
  · rw [hc, hk]; decide
  · rw [hrun]
    simp [closeTrace]

/-- C5: the result of a run that reaches the shutdown phase.  The function
returns, and it returns `nil` if and only if the monitor, the provider and the
datastore all closed without error; if any one of the three `Close` calls
failed it returns the non-nil error `ErrDaemonStop`. -/
theorem shutdown_result_iff (env : Env) (h : (daemonCommand env).enteredShutdown) :
    ((daemonCommand env).outcome = .returned none ↔
      env.monitorClose = none ∧ env.providerClose = none ∧ env.datastoreClose = none) ∧
    (¬ (env.monitorClose = none ∧ env.providerClose = none ∧ env.datastoreClose = none) →
      (daemonCommand env).outcome = .returned (some ErrDaemonStop)) ∧
    (∃ err, (daemonCommand env).outcome = .returned err) := by
  obtain ⟨hf, hd⟩ := (enteredShutdown_iff env).1 h
  have hrun := daemonCommand_of_started _ hf
  rw [hd] at hrun
  rw [hrun]
  by_cases hall :
      env.monitorClose = none ∧ env.providerClose = none ∧ env.datastoreClose = none
  · simp [hall]
  · simp [hall]

/-- C5, witness: every `Close` succeeds and the function returns `nil`. -/
theorem shutdown_result_iff_witness :
    (daemonCommand envOk).enteredShutdown ∧ (daemonCommand envOk).outcome = .returned none :=
  ⟨by decide, (shutdown_result_iff envOk (by decide)).1.2 ⟨rfl, rfl, rfl⟩⟩

/-! ## Start-up failures leave what was built untouched -/

/-- C6: no rollback.  In every run in which some start-up step fails, the
function returns a non-nil error, `Close` is called on no handle at all (so on
none of the handles the earlier steps constructed), the shutdown phase is not
entered, the shutdown context and the watchdog goroutine are never created,
and the blocking wait on the stop signal is never reached. -/
theorem init_failure_no_rollback (env : Env) (h : ∃ s c, stepCause env s = some c) :
    (∃ err, (daemonCommand env).outcome = .returned (some err)) ∧
    (daemonCommand env).closes = [] ∧
    (∀ r, Event.close r ∉ (daemonCommand env).trace) ∧
    ¬ (daemonCommand env).enteredShutdown ∧
    (∀ d, Event.withTimeout d ∉ (daemonCommand env).trace) ∧
    Event.goWatchdog ∉ (daemonCommand env).trace ∧
    Event.waitDone ∉ (daemonCommand env).trace ∧
    Event.cancel ∉ (daemonCommand env).trace := by
  obtain ⟨s, c, hf⟩ := (firstFailure_isSome_iff env).1 h
  have hent : ¬ (daemonCommand env).enteredShutdown := by
    intro he
    rw [((enteredShutdown_iff env).1 he).1] at hf
    exact Option.noConfusion hf
  obtain ⟨hrun, _⟩ := daemonCommand_of_firstFailure env s c hf
  obtain ⟨h1, h2, h3, h4, h5⟩ := initTrace_startup_only s
  have hcl : ∀ r, Event.close r ∉ (daemonCommand env).trace := by rw [hrun]; exact h1
  refine ⟨⟨_, by rw [hrun]⟩, ?_, hcl, hent, ?_, ?_, ?_, ?_⟩
  · rw [hrun]; cases s <;> rfl
  · rw [hrun]; exact h2
  · rw [hrun]; exact h3
  · rw [hrun]; exact h4
  · rw [hrun]; exact h5

/-- C6, witness: the monitor cannot be constructed; every earlier step was
carried out, so the host, the datastore and the provider exist, and none of
them is closed. -/
theorem init_failure_no_rollback_witness :
    stepCause envMonitorNewFails .monitorNew = some (.ext 11 "monitor: bad url") ∧
    (daemonCommand envMonitorNewFails).steps = initSteps ∧
    (daemonCommand envMonitorNewFails).closes = [] ∧
    Event.waitDone ∉ (daemonCommand envMonitorNewFails).trace :=
  have h := init_failure_no_rollback envMonitorNewFails ⟨.monitorNew, _, rfl⟩
  ⟨rfl, by decide, h.2.1, h.2.2.2.2.2.2.1⟩

/-! ## The datastore type -/

/-- C7: validation of the datastore type.  Let the log level be set, the
configuration `cfg` be loaded, the identity be decoded, the address be parsed
and the host be constructed.  If `cfg.Datastore.Type` is any string other than
`"levelds"`, the function returns the error of line 78, whose text names the
type as `%q` renders it, and the datastore path is not resolved, writability is
not checked and the datastore is not opened.  If it is `"levelds"`, the check
passes and the next step carried out is the resolution of the datastore
path. -/
theorem datastore_type_validation (env : Env) (cfg : Config)
    (h1 : env.setLogLevel = none) (h2 : env.configLoad = .ok cfg)
    (h3 : env.identityDecode = none) (h4 : env.newMultiaddr = none)
    (h5 : env.libp2pNew = none) :
    (cfg.datastoreType ≠ "levelds" →
      (daemonCommand env).outcome = .returned (some (.new
        ("only levelds datastore type supported, " ++ env.quote cfg.datastoreType
          ++ " not supported"))) ∧
      (daemonCommand env).steps = [.setLogLevel, .configLoad, .identityDecode, .newMultiaddr,
        .libp2pNew, .checkDatastoreType] ∧
      Event.step .configPath ∉ (daemonCommand env).trace ∧
      Event.step .checkWritable ∉ (daemonCommand env).trace ∧
      Event.step .newDatastore ∉ (daemonCommand env).trace) ∧
    (cfg.datastoreType = "levelds" →
      (daemonCommand env).steps.take 7 = [.setLogLevel, .configLoad, .identityDecode,
        .newMultiaddr, .libp2pNew, .checkDatastoreType, .configPath] ∧
      Event.step .configPath ∈ (daemonCommand env).trace) := by
  constructor
  · intro hty
    have hf : firstFailure env = some (.checkDatastoreType, .new
        ("only levelds datastore type supported, " ++ env.quote cfg.datastoreType
          ++ " not supported")) := by
      simp [firstFailure, initSteps, List.findSome?, stepCause, h1, h2, h3, h4, h5, hty]
    obtain ⟨hrun, _⟩ := daemonCommand_of_firstFailure env _ _ hf
    have htr : (daemonCommand env).trace = initTrace .checkDatastoreType := by rw [hrun]
    rw [htr]
    refine ⟨by rw [hrun]; rfl, by rw [hrun]; rfl, ?_, ?_, ?_⟩
    · exact step_not_mem_initTrace .checkDatastoreType .configPath (by decide)
    · exact step_not_mem_initTrace .checkDatastoreType .checkWritable (by decide)
    · exact step_not_mem_initTrace .checkDatastoreType .newDatastore (by decide)
  · intro hty
    cases hf : firstFailure env with
    | some p =>
      obtain ⟨s, c⟩ := p
      have hc := stepCause_of_firstFailure env s c hf
      obtain ⟨hrun, _⟩ := daemonCommand_of_firstFailure env s c hf
      have htr : (daemonCommand env).trace = initTrace s := by rw [hrun]
      have hst : (daemonCommand env).steps = initSteps.take (initSteps.indexOf s + 1) := by
        rw [hrun]; exact steps_initTrace _ s
      rw [htr, hst]
      cases s
      case setLogLevel => simp [stepCause, h1] at hc
      case configLoad => simp [stepCause, h2] at hc
      case identityDecode => simp [stepCause, h3] at hc
      case newMultiaddr => simp [stepCause, h4] at hc
      case libp2pNew => simp [stepCause, h5] at hc
      case checkDatastoreType => simp [stepCause, h2, hty] at hc
      case configPath => exact ⟨rfl, configPath_mem_initTrace .configPath (by decide)⟩
      case checkWritable => exact ⟨rfl, configPath_mem_initTrace .checkWritable (by decide)⟩
      case newDatastore => exact ⟨rfl, configPath_mem_initTrace .newDatastore (by decide)⟩
      case peerDecode => exact ⟨rfl, configPath_mem_initTrace .peerDecode (by decide)⟩
      case legsNew => exact ⟨rfl, configPath_mem_initTrace .legsNew (by decide)⟩
      case monitorNew => exact ⟨rfl, configPath_mem_initTrace .monitorNew (by decide)⟩
    | none =>
      have hrun := daemonCommand_of_started _ hf
      rw [initTrace_monitorNew] at hrun
      rw [hrun]
      cases env.cctxDone
      · exact ⟨rfl, by simp⟩
      · exact ⟨rfl, by simp⟩

/-- C7, witness: the configured type is `badger`. -/
theorem datastore_type_validation_witness :
    (daemonCommand envBadgerDatastore).outcome = .returned (some (.new
      "only levelds datastore type supported, \"badger\" not supported")) ∧
    Event.step .configPath ∉ (daemonCommand envBadgerDatastore).trace :=
  have h := (datastore_type_validation envBadgerDatastore
    ⟨"/ip4/0.0.0.0/tcp/9003", "badger", "datastore"⟩ rfl rfl rfl rfl rfl).1 (by decide)
  ⟨h.1, h.2.2.1⟩

/-! ## Failure of `config.Load` -/

/-- C10: reporting a failed `config.Load`.  Let `config.Load` be called and
fail with `e`.  If `e` is `config.ErrNotInitialized`, the function returns the
fixed error "pando provider is not initialized ... run using the "init"
command".  For every other `e` it returns an error that wraps `e` and whose
text is "cannot load config file: " followed by the text of `e`.  The two
texts differ whatever the text of `e` is, and in both cases the steps carried
out are the setting of the log level and the load, and nothing after. -/
theorem config_load_failure_reporting (env : Env) (e : GoError)
    (hcall : Event.step .configLoad ∈ (daemonCommand env).trace)
    (hload : env.configLoad = .error e) :
    (e = env.errNotInitialized → (daemonCommand env).outcome = .returned (some (.new
      "pando provider is not initialized\nTo initialize, run using the \"init\" command"))) ∧
    (e ≠ env.errNotInitialized → ∃ ret, (daemonCommand env).outcome = .returned (some ret) ∧
      ret.Unwrap = some e ∧ ret.Error = "cannot load config file: " ++ e.Error) ∧
    (∀ e₂ : GoError, GoError.Error (.new
      "pando provider is not initialized\nTo initialize, run using the \"init\" command") ≠
      "cannot load config file: " ++ e₂.Error) ∧
    (daemonCommand env).steps = [.setLogLevel, .configLoad] ∧
    (∀ t, t ≠ .setLogLevel → t ≠ .configLoad → Event.step t ∉ (daemonCommand env).trace) := by
  have hsl : env.setLogLevel = none := by
    cases hs : env.setLogLevel with
    | none => rfl
    | some err =>
      have hf : firstFailure env = some (.setLogLevel, err) := by
        simp [firstFailure, initSteps, List.findSome?, stepCause, hs]
      rw [(daemonCommand_of_firstFailure env _ _ hf).1] at hcall
      exact absurd hcall (step_not_mem_initTrace .setLogLevel .configLoad (by decide))
  have hf : firstFailure env = some (.configLoad, e) := by
    simp [firstFailure, initSteps, List.findSome?, stepCause, hsl, hload]
  obtain ⟨hrun, _⟩ := daemonCommand_of_firstFailure env _ _ hf
  rw [hrun]
  refine ⟨?_, ?_, ?_, rfl, ?_⟩
  · intro he; simp [surfaced, he]
  · intro he; exact ⟨_, rfl, by simp [surfaced, he, GoError.Unwrap, GoError.Error]⟩
  · intro e₂; exact notInitialized_ne_cannotLoad _
  · intro t h1 h2
    refine step_not_mem_initTrace .configLoad t ?_
    revert h1 h2
    cases t <;> decide

/-- C10, witness: the provider was never initialised; and, for the other
branch, the configuration file is damaged. -/
theorem config_load_failure_reporting_witness :
    Event.step .configLoad ∈ (daemonCommand envNotInitialized).trace ∧
    (daemonCommand envNotInitialized).outcome = .returned (some (.new
      "pando provider is not initialized\nTo initialize, run using the \"init\" command")) ∧
    (daemonCommand envNotInitialized).steps = [.setLogLevel, .configLoad] ∧
    (∃ ret, (daemonCommand envConfigDamaged).outcome = .returned (some ret) ∧
      ret.Unwrap = some (.ext 9 "unexpected end of JSON input") ∧
      ret.Error = "cannot load config file: " ++
        (GoError.ext 9 "unexpected end of JSON input").Error) :=
  have h := config_load_failure_reporting envNotInitialized (.ext 1 "not initialized")
    (by decide) rfl
  have h₂ := config_load_failure_reporting envConfigDamaged
    (.ext 9 "unexpected end of JSON input") (by decide) rfl
  ⟨by decide, h.1 rfl, h.2.2.2.1, h₂.2.1 (by decide)⟩

/-! ## The aggregated result does not carry a cause -/

/-- C4, counterexample: the monitor closes, the provider fails to close with
`ProviderCloseError`, the datastore closes.  The last failing `Close` has
cause `ProviderCloseError`, yet the function returns `ErrDaemonStop`: that
error is not `ProviderCloseError`, wraps nothing, and its text does not mention
it; and a run in which the provider fails with another cause returns the very
same result. -/
theorem shutdown_result_drops_cause :
    (daemonCommand envProviderCloseFails).enteredShutdown ∧
    lastCloseFailure envProviderCloseFails = some providerCloseError ∧
    (daemonCommand envProviderCloseFails).outcome = .returned (some ErrDaemonStop) ∧
    providerCloseError ∉ ErrDaemonStop.chain ∧
    ErrDaemonStop.Unwrap = none ∧
    ¬ (providerCloseError.Error.data <:+: ErrDaemonStop.Error.data) ∧
    lastCloseFailure envProviderCloseFailsOtherwise ≠ lastCloseFailure envProviderCloseFails ∧
    (daemonCommand envProviderCloseFailsOtherwise).outcome =
      (daemonCommand envProviderCloseFails).outcome := by
  decide

/-- The aggregation in a run of the function that reaches the shutdown phase
and in which some `Close` fails: in such a run every `Close` call returns. -/
theorem aggregation_of_returning_run (env : Env)
    (h : (daemonCommand env).enteredShutdown)
    (hfail : ∃ c, lastCloseFailure env = some c) :
    (∀ r msg e retained, (closeStep r msg (some e) retained).1 = some ErrDaemonStop) ∧
    (∀ r msg retained, (closeStep r msg none retained).1 = retained) ∧
    (daemonCommand env).outcome = .returned (some ErrDaemonStop) ∧
    (daemonCommand env).closes = [.monitor, .provider, .datastore] ∧
    (daemonCommand env).errorLog =
      (env.monitorClose.toList.map fun e => "Error closing monitor: " ++ e.Error) ++
      (env.providerClose.toList.map fun e => "Error closing legsProvider: " ++ e.Error) ++
      (env.datastoreClose.toList.map fun e =>
        "Error closing provider datastore: " ++ e.Error) ∧
    (∀ c, env.monitorClose = none → env.providerClose = some c → env.datastoreClose = none →
      (daemonCommand env).errorLog = ["Error closing legsProvider: " ++ c.Error] ∧
      Resource.datastore ∈ (daemonCommand env).closes) := by
  obtain ⟨hf, hd⟩ := (enteredShutdown_iff env).1 h
  have hrun := daemonCommand_of_started _ hf
  rw [hd, initTrace_monitorNew] at hrun
  have hcl := closes_of_enteredShutdown env h
  have hlog : (daemonCommand env).errorLog =
      (env.monitorClose.toList.map fun e => "Error closing monitor: " ++ e.Error) ++
      (env.providerClose.toList.map fun e => "Error closing legsProvider: " ++ e.Error) ++
      (env.datastoreClose.toList.map fun e =>
        "Error closing provider datastore: " ++ e.Error) := by
    rw [hrun]
    rcases env.monitorClose with _ | e1 <;> rcases env.providerClose with _ | e2 <;>
      rcases env.datastoreClose with _ | e3 <;> simp [Run.errorLog, closeTrace]
  have hout : (daemonCommand env).outcome = .returned (some ErrDaemonStop) := by
    obtain ⟨c, hc⟩ := hfail
    rw [hrun]
    rcases hm : env.monitorClose with _ | e1 <;> rcases hp : env.providerClose with _ | e2 <;>
      rcases hds : env.datastoreClose with _ | e3 <;>
      simp [lastCloseFailure, hm, hp, hds] at hc ⊢
  refine ⟨fun _ _ _ _ => rfl, fun _ _ _ => rfl, hout, hcl, hlog, ?_⟩
  intro c hm hp hds
  rw [hlog, hcl, hm, hp, hds]
  exact ⟨rfl, by decide⟩

/-! ## The process: runs ended by the watchdog -/

/-- The trace of a run of the function that reaches the shutdown phase. -/
theorem trace_of_started (env : Env) (hf : firstFailure env = none)
    (hd : env.cctxDone = true) :
    (daemonCommand env).trace = shutdownHead ++ shutdownTail env := by
  have hrun := daemonCommand_of_started env hf
  rw [hd, initTrace_monitorNew] at hrun
  rw [hrun]
  simp [shutdownHead, shutdownTail]

/-- What the goroutine of `daemonCommand` does in a run of the process is an
initial part of what it does when nothing ends the process. -/
theorem daemonProcess_trace_initial (w : World) :
    (daemonProcess w).trace <+: (daemonCommand w.env).trace := by
  unfold daemonProcess
  simp only []
  split
  · split
    · split
      · exact List.take_prefix _ _
      · exact List.prefix_refl _
    · exact List.prefix_refl _
  · exact List.prefix_refl _

/-- A run of the process that the watchdog does not end is the run of the
function. -/
theorem daemonProcess_of_not_forceTerminated (w : World)
    (h : ¬ (daemonProcess w).forceTerminated) :
    (daemonProcess w).trace = (daemonCommand w.env).trace ∧
    (daemonProcess w).outcome = (daemonCommand w.env).outcome.toProcess := by
  unfold daemonProcess at h ⊢
  simp only [] at h ⊢
  split
  · split
    · split
      · rename_i hm x k heq hk
        rw [if_pos hm, heq] at h
        simp only [if_pos hk] at h
        exact absurd ⟨-1, rfl⟩ h
      · exact ⟨rfl, rfl⟩
    · exact ⟨rfl, rfl⟩
  · exact ⟨rfl, rfl⟩

/-- The closed form of a run of the process that reaches the shutdown phase:
the trace up to the start of the watchdog, then an initial part of the close
sequence, which is the whole close sequence unless the watchdog ends the
run. -/
theorem daemonProcess_of_started (w : World) (hf : firstFailure w.env = none)
    (hd : w.env.cctxDone = true) :
    ∃ rest, rest <+: shutdownTail w.env ∧
      (daemonProcess w).trace = shutdownHead ++ rest ∧
      (¬ (daemonProcess w).forceTerminated → rest = shutdownTail w.env) := by
  have hr := trace_of_started w.env hf hd
  by_cases hft : (daemonProcess w).forceTerminated
  swap
  · exact ⟨shutdownTail w.env, List.prefix_refl _,
      by rw [(daemonProcess_of_not_forceTerminated w hft).1, hr], fun _ => rfl⟩
  · have hsplit : shutdownHead ++ shutdownTail w.env =
        shutdownHead.dropLast ++ (Event.goWatchdog :: shutdownTail w.env) := rfl
    have hidx : List.indexOf Event.goWatchdog (daemonCommand w.env).trace = 16 := by
      rw [hr, hsplit, List.indexOf_append_of_not_mem (by decide), List.indexOf_cons_self]
      rfl
    have hlen : shutdownHead.length = 16 + 1 := rfl
    have hmem : Event.goWatchdog ∈ (daemonCommand w.env).trace := by
      rw [hr, hsplit]
      exact List.mem_append_right _ (List.mem_cons_self _ _)
    cases hda : w.deadlineAfter with
    | none =>
      exfalso
      unfold daemonProcess at hft
      simp only [] at hft
      rw [if_pos hmem, hda] at hft
      obtain ⟨code, hc⟩ := hft
      cases hout : (daemonCommand w.env).outcome <;> simp [hout, Outcome.toProcess] at hc
    | some k =>
      by_cases hk : List.indexOf Event.goWatchdog (daemonCommand w.env).trace + 1 + k <
          (daemonCommand w.env).trace.length
      · have hp : (daemonProcess w).trace = List.take (16 + 1 + k) (daemonCommand w.env).trace := by
          unfold daemonProcess
          simp only []
          rw [if_pos hmem, hda]
          simp only [if_pos hk]
          rw [hidx]
        refine ⟨List.take k (shutdownTail w.env), List.take_prefix _ _, ?_, fun hn => absurd hft hn⟩
        rw [hp, hr, ← hlen, List.take_append]
      · exfalso
        unfold daemonProcess at hft
        simp only [] at hft
        rw [if_pos hmem, hda] at hft
        simp only [if_neg hk] at hft
        obtain ⟨code, hc⟩ := hft
        cases hout : (daemonCommand w.env).outcome <;> simp [hout, Outcome.toProcess] at hc

/-- The `Close` calls in the close sequence of the function. -/
theorem closes_shutdownTail (env : Env) :
    ((shutdownTail env).filterMap fun e => match e with
      | .close x => some x
      | _ => none) = [.monitor, .provider, .datastore] := by
  unfold shutdownTail
  rcases env.monitorClose with _ | e1 <;> rcases env.providerClose with _ | e2 <;>
    rcases env.datastoreClose with _ | e3 <;> simp [closeTrace]

/-- The close sequence of the function holds no start-up step and no `Close` on
the host. -/
theorem shutdownTail_frame (env : Env) :
    ((shutdownTail env).filterMap fun e => match e with
      | .step s => some s
      | _ => none) = [] ∧ Event.close .host ∉ shutdownTail env := by
  unfold shutdownTail
  rcases env.monitorClose with _ | e1 <;> rcases env.providerClose with _ | e2 <;>
    rcases env.datastoreClose with _ | e3 <;> simp [closeTrace]

/-- C3, counterexample: every call would succeed, but `m.Close()` has not
returned when the deadline of the shutdown context passes.  The run reached
the shutdown phase, the watchdog prints and calls `os.Exit(-1)`, and the
`Close` calls issued are the one on the monitor only. -/
theorem close_sequence_cut_short :
    (daemonProcess worldMonitorCloseHangs).enteredShutdown ∧
    (daemonProcess worldMonitorCloseHangs).outcome = .exited (-1) ∧
    (daemonProcess worldMonitorCloseHangs).watchdog =
      [.println "Timed out on shutdown, terminating...", .osExit (-1)] ∧
    (daemonProcess worldMonitorCloseHangs).closes = [.monitor] ∧
    (daemonProcess worldMonitorCloseHangs).closes ≠ [.monitor, .provider, .datastore] := by
  decide

/-- C3 (amended): the close order.  In every run that reaches the shutdown
phase the `Close` calls issued are an initial part of monitor, provider,
datastore, in that order, and they are exactly these three when the run is not
ended by the watchdog.  The handles were constructed in the order host,
datastore, provider, monitor, so the full close order is the reverse of the
construction order without the host; `Close` is never called on the libp2p
host, whether the run is ended by the watchdog or not. -/
theorem process_close_order (w : World) (h : (daemonProcess w).enteredShutdown) :
    (daemonProcess w).closes <+: [.monitor, .provider, .datastore] ∧
    (¬ (daemonProcess w).forceTerminated →
      (daemonProcess w).closes = [.monitor, .provider, .datastore]) ∧
    (daemonProcess w).constructions = [.host, .datastore, .provider, .monitor] ∧
    (¬ (daemonProcess w).forceTerminated →
      (daemonProcess w).closes =
        ((daemonProcess w).constructions.filter fun r => r ≠ .host).reverse) ∧
    Event.close .host ∉ (daemonProcess w).trace := by
  have hre : (daemonCommand w.env).enteredShutdown :=
    List.IsPrefix.mem h (daemonProcess_trace_initial w)
  obtain ⟨hf, hd⟩ := (enteredShutdown_iff w.env).1 hre
  obtain ⟨rest, hpre, htr, hfull⟩ := daemonProcess_of_started w hf hd
  have hc : (daemonProcess w).closes <+: [.monitor, .provider, .datastore] := by
    have h1 := List.IsPrefix.filterMap (fun e => match e with
      | Event.close x => some x
      | _ => none) hpre
    rw [closes_shutdownTail] at h1
    unfold ProcessRun.closes
    rw [htr, List.filterMap_append]
    exact h1
  have hcf : ¬ (daemonProcess w).forceTerminated →
      (daemonProcess w).closes = [.monitor, .provider, .datastore] := by
    intro hn
    unfold ProcessRun.closes
    rw [htr, hfull hn, List.filterMap_append, closes_shutdownTail]
    rfl
  have hk : (daemonProcess w).constructions = [.host, .datastore, .provider, .monitor] := by
    have h1 := List.IsPrefix.filterMap (fun e => match e with
      | Event.step s => some s
      | _ => none) hpre
    rw [(shutdownTail_frame w.env).1, List.prefix_nil] at h1
    unfold ProcessRun.constructions ProcessRun.steps
    rw [htr, List.filterMap_append, h1]
    rfl
  refine ⟨hc, hcf, hk, ?_, ?_⟩
  · intro hn
    rw [hcf hn, hk]
    decide
  · rw [htr, List.mem_append]
    rintro (hh | hh)
    · exact absurd hh (by decide)
    · exact (shutdownTail_frame w.env).2 (hpre.subset hh)

/-- C3 (amended), witness: a run in which every call succeeds and the deadline
does not pass. -/
theorem process_close_order_witness :
    (daemonProcess worldOk).enteredShutdown ∧ ¬ (daemonProcess worldOk).forceTerminated ∧
    (daemonProcess worldOk).closes = [.monitor, .provider, .datastore] ∧
    Event.close .host ∉ (daemonProcess worldOk).trace :=
  have h := process_close_order worldOk (by decide)
  ⟨by decide, by decide, h.2.1 (by decide), h.2.2.2.2⟩

/-- A run ended by the watchdog returns nothing: the monitor fails to close at
once and `legsProvider.Close()` has not returned when the deadline passes.  The
process exits, `daemonCommand` does not return, and `Close` is never called on
the datastore. -/
theorem run_ended_by_watchdog_returns_nothing :
    (daemonProcess worldProviderCloseHangs).enteredShutdown ∧
    (daemonProcess worldProviderCloseHangs).forceTerminated ∧
    (∀ err, (daemonProcess worldProviderCloseHangs).outcome ≠ .returned err) ∧
    (daemonProcess worldProviderCloseHangs).closes = [.monitor, .provider] := by
  refine ⟨by decide, by decide, ?_, by decide⟩
  intro err
  have h : (daemonProcess worldProviderCloseHangs).outcome = .exited (-1) := by decide
  rw [h]
  exact ProcessOutcome.noConfusion

/-- C4 (amended): aggregation at shutdown keeps one fixed value.  A close block
whose `Close` fails overwrites whatever was retained with `ErrDaemonStop`, and
one whose `Close` succeeds keeps what was retained.  So in every run that
reaches the shutdown phase, is not ended by the watchdog, and in which at least
one `Close` fails, the function returns `ErrDaemonStop`, whichever `Close`
calls failed and whatever their causes; all three `Close` calls are made; and
the causes go to the error log only, one line for each failing `Close`, in
close order.  In particular, when the monitor closes, the provider fails with
cause `c` and the datastore closes, the result is `ErrDaemonStop`, the log
holds the line for `c`, and `Close` was still called on the datastore. -/
theorem shutdown_failure_is_ErrDaemonStop (w : World)
    (h : (daemonProcess w).enteredShutdown)
    (hlive : ¬ (daemonProcess w).forceTerminated)
    (hfail : ∃ c, lastCloseFailure w.env = some c) :
    (∀ r msg e retained, (closeStep r msg (some e) retained).1 = some ErrDaemonStop) ∧
    (∀ r msg retained, (closeStep r msg none retained).1 = retained) ∧
    (daemonProcess w).outcome = .returned (some ErrDaemonStop) ∧
    (daemonProcess w).closes = [.monitor, .provider, .datastore] ∧
    (daemonProcess w).errorLog =
      (w.env.monitorClose.toList.map fun e => "Error closing monitor: " ++ e.Error) ++
      (w.env.providerClose.toList.map fun e => "Error closing legsProvider: " ++ e.Error) ++
      (w.env.datastoreClose.toList.map fun e =>
        "Error closing provider datastore: " ++ e.Error) ∧
    (∀ c, w.env.monitorClose = none → w.env.providerClose = some c →
      w.env.datastoreClose = none →
      (daemonProcess w).errorLog = ["Error closing legsProvider: " ++ c.Error] ∧
      Resource.datastore ∈ (daemonProcess w).closes) := by
  have hre : (daemonCommand w.env).enteredShutdown :=
    List.IsPrefix.mem h (daemonProcess_trace_initial w)
  obtain ⟨htr, hout⟩ := daemonProcess_of_not_forceTerminated w hlive
  obtain ⟨h1, h2, h3, h4, h5, h6⟩ := aggregation_of_returning_run w.env hre hfail
  have hcl : (daemonProcess w).closes = (daemonCommand w.env).closes := by
    unfold ProcessRun.closes Run.closes
    rw [htr]
  have hlog : (daemonProcess w).errorLog = (daemonCommand w.env).errorLog := by
    unfold ProcessRun.errorLog Run.errorLog
    rw [htr]
  refine ⟨h1, h2, ?_, ?_, ?_, ?_⟩
  · rw [hout, h3]; rfl
  · rw [hcl]; exact h4
  · rw [hlog]; exact h5
  · intro c hm hp hds
    rw [hlog, hcl]
    exact h6 c hm hp hds

/-- C4 (amended), witness: the provider fails to close with
`ProviderCloseError` and the deadline does not pass. -/
theorem shutdown_failure_is_ErrDaemonStop_witness :
    (daemonProcess worldProviderCloseFails).enteredShutdown ∧
    ¬ (daemonProcess worldProviderCloseFails).forceTerminated ∧
    (daemonProcess worldProviderCloseFails).outcome = .returned (some ErrDaemonStop) ∧
    (daemonProcess worldProviderCloseFails).errorLog =
      ["Error closing legsProvider: ProviderCloseError"] ∧
    Resource.datastore ∈ (daemonProcess worldProviderCloseFails).closes :=
  have h := shutdown_failure_is_ErrDaemonStop worldProviderCloseFails (by decide) (by decide)
    ⟨providerCloseError, by decide⟩
  ⟨by decide, by decide, h.2.2.1, (h.2.2.2.2.2 providerCloseError rfl rfl rfl).1,
    (h.2.2.2.2.2 providerCloseError rfl rfl rfl).2⟩

end PandoWatch
